import Mathlib

/-
  Verification of the emmon system monitor (Go) against its specification.

  Shallow embedding notes:
  - Go float64 values are modelled as rationals (ℚ); the metric files involved
    hold decimal literals, for which rational arithmetic is exact.
  - Go uint64 counters are modelled as ℕ (no claim involves 64-bit wraparound).
  - A fallible OS read is modelled as an Option input: `none` means the
    corresponding open/read call failed, `some s` means it returned content s.
  - Functions returning Go (value, error) pairs are modelled as Except String.
  - strconv.ParseFloat is embedded on plain decimal literals
    (optional sign, digits, optional fractional part), the lexical form of the
    proc/sysfs files read by this program.
-/

namespace Emmon

/-- Numeric value of a list of decimal digit characters, most significant first.
Embeds the accumulation loop inside strconv parsing. -/
def digitsToNat (l : List Char) : Nat :=
  l.foldl (fun acc c => acc * 10 + (c.toNat - 48)) 0

/-- Value of a signed decimal literal with integer part ip and fractional part
fr, as a rational: sign times (ip + fr over 10 to the length of fr), built in
one mkRat so it is a closed-form arithmetic expression. -/
def decimalValue (pos : Bool) (ip fr : List Char) : ℚ :=
  let n : Int := (digitsToNat ip : Int) * 10 ^ fr.length + (digitsToNat fr : Int)
  mkRat (if pos then n else -n) (10 ^ fr.length)

/-- Embeds strconv.ParseFloat (base-10, no exponent): optional sign, then
digits with an optional fractional part; at least one digit overall. -/
def parseFloat (s : String) : Option ℚ :=
  let signed : Bool × List Char :=
    match s.toList with
    | '+' :: r => (true, r)
    | '-' :: r => (false, r)
    | r => (true, r)
  let ip := signed.2.takeWhile Char.isDigit
  let rest := signed.2.dropWhile Char.isDigit
  match rest with
  | [] =>
      if ip.isEmpty then none
      else some (decimalValue signed.1 ip [])
  | '.' :: fr =>
      if fr.all Char.isDigit && !(ip.isEmpty && fr.isEmpty) then
        some (decimalValue signed.1 ip fr)
      else none
  | _ => none

/-- Sanity lemma: decimalValue is the usual reading of a decimal literal. -/
theorem decimalValue_eq (pos : Bool) (ip fr : List Char) :
    decimalValue pos ip fr =
      (if pos then (1 : ℚ) else -1) *
        ((digitsToNat ip : ℚ) + (digitsToNat fr : ℚ) / (10 : ℚ) ^ fr.length) := by
  unfold decimalValue
  rw [Rat.mkRat_eq_div]
  have h10 : ((10 : ℚ) ^ fr.length) ≠ 0 := by positivity
  cases pos <;> push_cast <;> field_simp

/-- Embeds strconv.ParseUint (base 10): digits only, nonempty.
(Go reports out-of-range separately; counters here are unbounded ℕ.) -/
def parseUint (s : String) : Option Nat :=
  let cs := s.toList
  if !cs.isEmpty && cs.all Char.isDigit then some (digitsToNat cs) else none

/-- Embeds strconv.Atoi: optional sign then digits. -/
def atoi (s : String) : Option Int :=
  match s.toList with
  | '+' :: cs => if !cs.isEmpty && cs.all Char.isDigit then some (digitsToNat cs : Int) else none
  | '-' :: cs => if !cs.isEmpty && cs.all Char.isDigit then some (-(digitsToNat cs : Int)) else none
  | cs => if !cs.isEmpty && cs.all Char.isDigit then some (digitsToNat cs : Int) else none

/-- Loop of goFields: collect maximal runs of non-separator characters.
(Structural recursion stands in for the iterator-based core functions.) -/
def wordsAux (p : Char → Bool) : List Char → List Char → List (List Char)
  | acc, [] => if acc.isEmpty then [] else [acc.reverse]
  | acc, c :: cs =>
    if p c then
      if acc.isEmpty then wordsAux p [] cs
      else acc.reverse :: wordsAux p [] cs
    else wordsAux p (c :: acc) cs

/-- Embeds strings.Fields: split on whitespace runs, dropping empty pieces. -/
def goFields (s : String) : List String :=
  (wordsAux Char.isWhitespace [] s.toList).map (fun cs => String.mk cs)

/-- Embeds strings.TrimSpace: drop whitespace on both ends. -/
def goTrim (s : String) : String :=
  String.mk (((s.toList.dropWhile Char.isWhitespace).reverse.dropWhile
    Char.isWhitespace).reverse)

/-- Loop of goSplitChar. -/
def splitCharAux (sep : Char) : List Char → List Char → List (List Char)
  | acc, [] => [acc.reverse]
  | acc, c :: cs =>
    if c = sep then acc.reverse :: splitCharAux sep [] cs
    else splitCharAux sep (c :: acc) cs

/-- Embeds strings.Split with a one-character separator. -/
def goSplitChar (sep : Char) (s : String) : List String :=
  (splitCharAux sep [] s.toList).map (fun cs => String.mk cs)

/-- Embeds strings.HasPrefix. -/
def goStartsWith (pre s : String) : Bool :=
  pre.toList.isPrefixOf s.toList

/- ===== Data model (monitor/system.go) ===== -/

/-- CPUStats of system.go (usage percent, load average, temperature, frequency). -/
structure CPUStats where
  UsagePercent : ℚ
  LoadAverage : List ℚ
  Temperature : ℚ
  Frequency : ℚ
  deriving DecidableEq

/-- MemStats of system.go. -/
structure MemStats where
  Total : Nat
  Used : Nat
  Free : Nat
  Available : Nat
  UsagePercent : ℚ
  deriving DecidableEq

/-- DiskStats of system.go. -/
structure DiskStats where
  Total : Nat
  Used : Nat
  Free : Nat
  UsagePercent : ℚ
  IORead : Nat
  IOWrite : Nat
  deriving DecidableEq

/-- TempStats of system.go (four named sensors, degrees Celsius). -/
structure TempStats where
  CPU : ℚ
  GPU : ℚ
  Board : ℚ
  Ambient : ℚ
  deriving DecidableEq

/-- GPIOState of system.go: one pin. -/
structure GPIOState where
  Pin : String
  Value : Int
  Mode : String
  deriving DecidableEq

/-- GPIOStats of system.go. The Go map[string]GPIOState is modelled by its
lookup function (Go map semantics: assignment updates one key). -/
structure GPIOStats where
  Pins : String → Option GPIOState

/-- DiskIOStats of system.go. -/
structure DiskIOStats where
  Read : Nat
  Write : Nat
  deriving DecidableEq

/-- SystemStats of system.go: one snapshot. The timestamp is an abstract clock
reading (ℕ). -/
structure SystemStats where
  Timestamp : Nat
  CPU : CPUStats
  Memory : MemStats
  Disk : DiskStats
  Temperature : TempStats
  GPIO : GPIOStats

/-- Go zero value of CPUStats (zero numbers, nil slice). -/
def zeroCPU : CPUStats := ⟨0, [], 0, 0⟩

/-- Go zero value of MemStats. -/
def zeroMem : MemStats := ⟨0, 0, 0, 0, 0⟩

/-- Go zero value of DiskStats. -/
def zeroDisk : DiskStats := ⟨0, 0, 0, 0, 0, 0⟩

/-- Go zero value of TempStats. -/
def zeroTemp : TempStats := ⟨0, 0, 0, 0⟩

/-- Go zero value of GPIOStats (nil map: every lookup misses). -/
def zeroGPIO : GPIOStats := ⟨fun _ => none⟩

/- ===== OS state as seen by the readers ===== -/

/-- One directory entry of /sys/class/gpio with the contents of its
direction and value files (none: the read of that file fails). -/
structure GPIOEntry where
  name : String
  direction : Option String
  value : Option String
  deriving DecidableEq

/-- State of the GPIO sysfs root: absent (os.Stat reports not-exist),
present but unlistable (ioutil.ReadDir fails), or a listable directory. -/
inductive GPIORoot where
  | absent : GPIORoot
  | unreadable : GPIORoot
  | dir : List GPIOEntry → GPIORoot
  deriving DecidableEq

/-- Result of gopsutil mem.VirtualMemory on success. -/
structure VMStat where
  total : Nat
  used : Nat
  free : Nat
  available : Nat
  usedPercent : ℚ
  deriving DecidableEq

/-- Result of gopsutil disk.Usage on success. -/
structure DiskUsage where
  total : Nat
  used : Nat
  free : Nat
  usedPercent : ℚ
  deriving DecidableEq

/-- The OS state each sensor reader consumes, one field per external input.
Option models a fallible acquisition; file contents are raw strings, files
read line-by-line are given as their line lists. -/
structure OSState where
  cpuPercent : Option (List ℚ)
  loadavg : Option String
  cpuinfo : Option (List String)
  vmstat : Option VMStat
  rootUsage : Option DiskUsage
  diskstats : Option (List String)
  thermalCpu : Option String
  thermalGpu : Option String
  thermalBoard : Option String
  thermalAmbient : Option String
  gpioRoot : GPIORoot

/- ===== Sensor readers (monitor/system.go) ===== -/

/-- The parse loop of readLoadAverage: parse every listed field, failing as
the Go loop does when any single parse fails. -/
def parseFloats : List String → Option (List ℚ)
  | [] => some []
  | s :: rest =>
    match parseFloat s, parseFloats rest with
    | some x, some xs => some (x :: xs)
    | _, _ => none

/-- Embeds readLoadAverage: read /proc/loadavg, split into fields, require at
least 3, parse the first three floats (a parse failure is an error). -/
def readLoadAverage (content : Option String) : Except String (List ℚ) :=
  match content with
  | none => .error "read /proc/loadavg"
  | some data =>
    let fs := goFields data
    if fs.length < 3 then .error "invalid loadavg format"
    else
      match parseFloats (fs.take 3) with
      | some loads => .ok loads
      | none => .error "parse float"

/-- Embeds the scanner loop of readCPUFrequency: first line with key
"cpu MHz" that splits on ":" into two parts and whose trimmed second part
parses; otherwise keep scanning. -/
def scanFrequency : List String → Except String ℚ
  | [] => .error "cpu frequency not found"
  | line :: rest =>
    if goStartsWith "cpu MHz" line then
      match goSplitChar ':' line with
      | [_, v] =>
        match parseFloat (goTrim v) with
        | some f => .ok f
        | none => scanFrequency rest
      | _ => scanFrequency rest
    else scanFrequency rest

/-- Embeds readCPUFrequency: open /proc/cpuinfo and scan its lines. -/
def readCPUFrequency (cpuinfo : Option (List String)) : Except String ℚ :=
  match cpuinfo with
  | none => .error "open /proc/cpuinfo"
  | some lines => scanFrequency lines

/-- Division of a rational by a positive natural written through mkRat;
ratDivNat_eq shows it is exactly division. -/
def ratDivNat (t : ℚ) (n : Nat) : ℚ :=
  mkRat t.num (t.den * n)

/-- The mkRat form of division agrees with division. -/
theorem ratDivNat_eq (t : ℚ) (n : Nat) : ratDivNat t n = t / n := by
  unfold ratDivNat
  rw [Rat.mkRat_eq_div]
  push_cast
  rw [div_mul_eq_div_div, Rat.num_div_den]

/-- Embeds readTemperature: read the sensor file, trim, parse, divide by 1000
(millidegrees to degrees Celsius). -/
def readTemperature (content : Option String) : Except String ℚ :=
  match content with
  | none => .error "read sensor file"
  | some data =>
    match parseFloat (goTrim data) with
    | none => .error "parse temperature"
    | some t => .ok (ratDivNat t 1000)

/-- Match predicate of the readDiskIO scanner loop: at least 14 fields and the
device-name field (index 2) is sda or mmcblk0. -/
def diskLineMatch (line : String) : Bool :=
  let fs := goFields line
  decide (14 ≤ fs.length) && (fs.get? 2 == some "sda" || fs.get? 2 == some "mmcblk0")

/-- Counters extracted from a matching diskstats line: ParseUint of fields 3
and 7; as in the source, a parse error is discarded and yields 0. -/
def diskLineCounters (line : String) : DiskIOStats :=
  let fs := goFields line
  ⟨(parseUint ((fs.get? 3).getD "")).getD 0, (parseUint ((fs.get? 7).getD "")).getD 0⟩

/-- Embeds the scanner loop of readDiskIO: return the counters of the first
matching line, or zero counters when no line matches. -/
def scanDiskLines : List String → DiskIOStats
  | [] => ⟨0, 0⟩
  | line :: rest =>
    if diskLineMatch line then diskLineCounters line else scanDiskLines rest

/-- Embeds readDiskIO: open /proc/diskstats and scan its lines; only the open
can fail. -/
def readDiskIO (diskstats : Option (List String)) : Except String DiskIOStats :=
  match diskstats with
  | none => .error "open /proc/diskstats"
  | some lines => .ok (scanDiskLines lines)

/-- Embeds readGPIOState: read the direction file (trimmed mode), then the
value file, then Atoi its trimmed content. -/
def readGPIOState (e : GPIOEntry) : Except String (Int × String) :=
  match e.direction with
  | none => .error "read direction"
  | some d =>
    let mode := goTrim d
    match e.value with
    | none => .error "read value"
    | some v =>
      match atoi (goTrim v) with
      | none => .error "atoi value"
      | some n => .ok (n, mode)

/- ===== Family readers ===== -/

/-- Body of getCPUStats: start from the zero value; each sub-read assigns its
field only on success (cpu.Percent also requires a nonempty slice). -/
def cpuStatsCore (st : OSState) : CPUStats :=
  let s0 : CPUStats := ⟨0, [], 0, 0⟩
  let s1 :=
    match st.cpuPercent with
    | some (u :: _) => { s0 with UsagePercent := u }
    | _ => s0
  let s2 :=
    match readLoadAverage st.loadavg with
    | .ok l => { s1 with LoadAverage := l }
    | .error _ => s1
  let s3 :=
    match readCPUFrequency st.cpuinfo with
    | .ok f => { s2 with Frequency := f }
    | .error _ => s2
  s3

/-- Embeds getCPUStats: always returns its accumulated stats with a nil error. -/
def getCPUStats (st : OSState) : Except String CPUStats :=
  .ok (cpuStatsCore st)

/-- Embeds getMemoryStats: fails exactly when mem.VirtualMemory fails. -/
def getMemoryStats (st : OSState) : Except String MemStats :=
  match st.vmstat with
  | none => .error "virtual memory"
  | some v => .ok ⟨v.total, v.used, v.free, v.available, v.usedPercent⟩

/-- Embeds getDiskStats: fails exactly when disk.Usage fails; the I/O
counters are set only when readDiskIO succeeds. -/
def getDiskStats (st : OSState) : Except String DiskStats :=
  match st.rootUsage with
  | none => .error "disk usage"
  | some u =>
    let s : DiskStats := ⟨u.total, u.used, u.free, u.usedPercent, 0, 0⟩
    match readDiskIO st.diskstats with
    | .ok ioStats => .ok { s with IORead := ioStats.Read, IOWrite := ioStats.Write }
    | .error _ => .ok s

/-- Body of getTemperatureStats: each of the four sensors assigns its own
field only when its read succeeds. The Go source iterates a literal map of
the four paths; the four iterations touch distinct fields, so the loop is
embedded as a straight line. -/
def tempStatsCore (st : OSState) : TempStats :=
  let s0 : TempStats := ⟨0, 0, 0, 0⟩
  let s1 :=
    match readTemperature st.thermalCpu with
    | .ok t => { s0 with CPU := t }
    | .error _ => s0
  let s2 :=
    match readTemperature st.thermalGpu with
    | .ok t => { s1 with GPU := t }
    | .error _ => s1
  let s3 :=
    match readTemperature st.thermalBoard with
    | .ok t => { s2 with Board := t }
    | .error _ => s2
  let s4 :=
    match readTemperature st.thermalAmbient with
    | .ok t => { s3 with Ambient := t }
    | .error _ => s3
  s4

/-- Embeds getTemperatureStats: always returns its stats with a nil error. -/
def getTemperatureStats (st : OSState) : Except String TempStats :=
  .ok (tempStatsCore st)

/-- One step of the getGPIOStats loop: entries with the gpio name prefix whose
state reads successfully are assigned into the pin map; others are skipped. -/
def gpioInsert (pins : String → Option GPIOState) (e : GPIOEntry) :
    String → Option GPIOState :=
  if goStartsWith "gpio" e.name then
    match readGPIOState e with
    | .ok vm => fun n => if n = e.name then some ⟨e.name, vm.1, vm.2⟩ else pins n
    | .error _ => pins
  else pins

/-- The getGPIOStats loop over the directory listing. -/
def gpioFold : (String → Option GPIOState) → List GPIOEntry → (String → Option GPIOState)
  | pins, [] => pins
  | pins, e :: rest => gpioFold (gpioInsert pins e) rest

/-- Body of getGPIOStats: empty pin map when the root is absent (os.Stat
not-exist) or unlistable (ReadDir error, loop skipped); otherwise the loop. -/
def gpioCore (root : GPIORoot) : GPIOStats :=
  match root with
  | .absent => ⟨fun _ => none⟩
  | .unreadable => ⟨fun _ => none⟩
  | .dir entries => ⟨gpioFold (fun _ => none) entries⟩

/-- Embeds getGPIOStats: always returns its stats with a nil error. -/
def getGPIOStats (st : OSState) : Except String GPIOStats :=
  .ok (gpioCore st.gpioRoot)

/- ===== Snapshot builder (GetSystemStats) ===== -/

/-- Body of GetSystemStats: stats start at the zero value with the timestamp
taken at invocation; each family is assigned only when its reader succeeds
(a failed reader is logged and its family left at the zero value). -/
def snapshotCore (t0 : Nat) (st : OSState) : SystemStats :=
  let s0 : SystemStats := ⟨t0, zeroCPU, zeroMem, zeroDisk, zeroTemp, zeroGPIO⟩
  let s1 :=
    match getCPUStats st with
    | .ok v => { s0 with CPU := v }
    | .error _ => s0
  let s2 :=
    match getMemoryStats st with
    | .ok v => { s1 with Memory := v }
    | .error _ => s1
  let s3 :=
    match getDiskStats st with
    | .ok v => { s2 with Disk := v }
    | .error _ => s2
  let s4 :=
    match getTemperatureStats st with
    | .ok v => { s3 with Temperature := v }
    | .error _ => s3
  let s5 :=
    match getGPIOStats st with
    | .ok v => { s4 with GPIO := v }
    | .error _ => s4
  s5

/-- Embeds GetSystemStats: builds the snapshot and returns it with a nil
error on every path. -/
def GetSystemStats (t0 : Nat) (st : OSState) : Except String SystemStats :=
  .ok (snapshotCore t0 st)

/-- Timed rendering of GetSystemStats: t0 is the clock at invocation
(time.Now() in the struct literal, before any reader is called); d gives the
time each of the five family reads takes, so the build finishes at the
returned clock. The stamp is taken from the entry clock, not from any later
one. -/
def GetSystemStatsTimed (t0 : Nat) (d : Fin 5 → Nat) (st : OSState) :
    SystemStats × Nat :=
  let stamp := t0
  let t1 := t0 + d 0
  let t2 := t1 + d 1
  let t3 := t2 + d 2
  let t4 := t3 + d 3
  let t5 := t4 + d 4
  let s0 : SystemStats := ⟨stamp, zeroCPU, zeroMem, zeroDisk, zeroTemp, zeroGPIO⟩
  let s1 :=
    match getCPUStats st with
    | .ok v => { s0 with CPU := v }
    | .error _ => s0
  let s2 :=
    match getMemoryStats st with
    | .ok v => { s1 with Memory := v }
    | .error _ => s1
  let s3 :=
    match getDiskStats st with
    | .ok v => { s2 with Disk := v }
    | .error _ => s2
  let s4 :=
    match getTemperatureStats st with
    | .ok v => { s3 with Temperature := v }
    | .error _ => s3
  let s5 :=
    match getGPIOStats st with
    | .ok v => { s4 with GPIO := v }
    | .error _ => s4
  (s5, t5)

/- ===== Web server (web/server.go) ===== -/

/-- Response body written by handleStats: the JSON encoding of a snapshot, or
the plain-text error message written by http.Error. -/
inductive Body where
  | json : SystemStats → Body
  | text : String → Body

/-- Abstraction of the HTTP response handleStats produces. -/
structure HTTPResponse where
  status : Nat
  contentType : String
  body : Body

/-- Embeds the branching of handleStats on the GetSystemStats result:
http.Error with status 500 on error, otherwise JSON with status 200. -/
def handleStatsCore (r : Except String SystemStats) : HTTPResponse :=
  match r with
  | .error e => ⟨500, "text/plain; charset=utf-8", .text e⟩
  | .ok s => ⟨200, "application/json", .json s⟩

/-- Embeds handleStats: one fresh GetSystemStats call per request, then the
branch on its error. -/
def handleStatsOn (t0 : Nat) (st : OSState) : HTTPResponse :=
  handleStatsCore (GetSystemStats t0 st)

/-- Lock mode of a critical section on the registry RWMutex of WebServer
(ws.mu): RLock or Lock. -/
inductive LockMode where
  | shared : LockMode
  | exclusive : LockMode
  deriving DecidableEq

/-- One critical section of server.go touching ws.clients, with its lock
mode, whether it reads or structurally mutates the registry, and whether the
program runs at most one instance of it at a time (the broadcast section
belongs to the single goroutine started once by Start). -/
structure CritSection where
  id : Nat
  mode : LockMode
  readsRegistry : Bool
  mutatesRegistry : Bool
  singleInstance : Bool
  deriving DecidableEq

/-- Insert of a new client in handleWebSocket, under ws.mu.Lock. -/
def insertOnConnect : CritSection := ⟨0, .exclusive, false, true, false⟩

/-- Delete of a disconnected client in the per-connection goroutine, under
ws.mu.Lock. -/
def deleteOnDisconnect : CritSection := ⟨1, .exclusive, false, true, false⟩

/-- The broadcast tick body in broadcastStats, under ws.mu.RLock: iterates the
registry to deliver and deletes a client whose WriteJSON fails. Run only by
the one broadcast goroutine Start launches. -/
def broadcastTickSection : CritSection := ⟨2, .shared, true, true, true⟩

/-- Every critical section of server.go that touches ws.clients. -/
def serverSections : List CritSection :=
  [insertOnConnect, deleteOnDisconnect, broadcastTickSection]

/-- RWMutex admission: two holders coexist only when both hold the read
lock. -/
def modesCompatible : LockMode → LockMode → Bool
  | .shared, .shared => true
  | _, _ => false

/-- Two section instances can overlap in time: the RWMutex must admit both
modes at once, and a section the program runs in a single goroutine cannot
overlap itself. -/
def canOverlap (a b : CritSection) : Bool :=
  modesCompatible a.mode b.mode && !(a.id == b.id && a.singleInstance)

/-- Outcome of one broadcast tick delivery loop over the registry. -/
structure TickResult where
  delivered : List Nat
  closed : List Nat
  registryAfter : List Nat
  deriving DecidableEq

/-- Embeds the delivery loop of broadcastStats over the iteration sequence of
ws.clients, with ok giving each WriteJSON outcome: on success the client is
delivered to and stays registered; on failure it is closed and deleted. (Go
map iteration still yields the entries not deleted, and only the current
client is deleted.) -/
def broadcastLoop : List Nat → (Nat → Bool) → TickResult
  | [], _ => ⟨[], [], []⟩
  | c :: rest, ok =>
    let r := broadcastLoop rest ok
    if ok c then ⟨c :: r.delivered, r.closed, c :: r.registryAfter⟩
    else ⟨r.delivered, c :: r.closed, r.registryAfter⟩

/- ===== Helper definitions and lemmas ===== -/

/-- Value of a fallible read, with a default for the failure case. -/
def exceptD {α : Type _} (r : Except String α) (d : α) : α :=
  match r with
  | .ok v => v
  | .error _ => d

/-- Usage percent extracted from the cpu.Percent result: the first sample if
the call succeeds with a nonempty slice, 0 otherwise. -/
def usageOf : Option (List ℚ) → ℚ
  | some (u :: _) => u
  | _ => 0

/-- Normal form of cpuStatsCore: each field comes from its own sub-read, with
Temperature untouched. -/
theorem cpuStatsCore_eq (st : OSState) :
    cpuStatsCore st =
      ⟨usageOf st.cpuPercent, exceptD (readLoadAverage st.loadavg) [], 0,
        exceptD (readCPUFrequency st.cpuinfo) 0⟩ := by
  unfold cpuStatsCore usageOf exceptD
  rcases st.cpuPercent with _ | ⟨_ | ⟨u, us⟩⟩ <;>
    cases readLoadAverage st.loadavg <;>
    cases readCPUFrequency st.cpuinfo <;> rfl

/-- Normal form of tempStatsCore: each sensor field comes from its own file
read alone. -/
theorem tempStatsCore_eq (st : OSState) :
    tempStatsCore st =
      ⟨exceptD (readTemperature st.thermalCpu) 0,
        exceptD (readTemperature st.thermalGpu) 0,
        exceptD (readTemperature st.thermalBoard) 0,
        exceptD (readTemperature st.thermalAmbient) 0⟩ := by
  unfold tempStatsCore exceptD
  cases readTemperature st.thermalCpu <;>
    cases readTemperature st.thermalGpu <;>
    cases readTemperature st.thermalBoard <;>
    cases readTemperature st.thermalAmbient <;> rfl

/-- Normal form of the snapshot build: the timestamp is the invocation clock
and each family is its own reader result, zero-valued on failure. -/
theorem snapshotCore_eq (t0 : Nat) (st : OSState) :
    snapshotCore t0 st =
      ⟨t0, cpuStatsCore st, exceptD (getMemoryStats st) zeroMem,
        exceptD (getDiskStats st) zeroDisk, tempStatsCore st,
        gpioCore st.gpioRoot⟩ := by
  unfold snapshotCore getCPUStats getMemoryStats getDiskStats
    getTemperatureStats getGPIOStats exceptD
  cases st.vmstat <;> cases st.rootUsage <;> cases st.diskstats <;> rfl

/-- A concrete OS state used to instantiate the theorems: all families
readable except the gpu and ambient thermal sensors and the GPIO tree. -/
def sampleState : OSState :=
  { cpuPercent := some [12]
    loadavg := some "0.10 0.25 0.30 2/150 12345"
    cpuinfo := some ["processor : 0", "cpu MHz : 1500.5"]
    vmstat := some ⟨1024, 512, 256, 400, mkRat 50 1⟩
    rootUsage := some ⟨2048, 1024, 1024, mkRat 50 1⟩
    diskstats := some ["1 0 loop0 1 0 0 0 0 0 0 0 0 0 0",
      "8 0 sda 100 5 2000 60 50 2 1000 70 0 0 0"]
    thermalCpu := some "45000"
    thermalGpu := none
    thermalBoard := some "30500"
    thermalAmbient := none
    gpioRoot := .absent }

/- ===== Claim theorems ===== -/

/-- C1: for every OS state, GetSystemStats returns a structurally complete
snapshot with a nil error; each family holds exactly what its reader
returned, and a failing reader contributes only the zero value for its own
family, leaving every other family at its own reader result. -/
theorem getSystemStats_total_absorbing (t0 : Nat) (st : OSState) :
    GetSystemStats t0 st = .ok (snapshotCore t0 st)
    ∧ (snapshotCore t0 st).Timestamp = t0
    ∧ (snapshotCore t0 st).CPU = exceptD (getCPUStats st) zeroCPU
    ∧ (snapshotCore t0 st).Memory = exceptD (getMemoryStats st) zeroMem
    ∧ (snapshotCore t0 st).Disk = exceptD (getDiskStats st) zeroDisk
    ∧ (snapshotCore t0 st).Temperature = exceptD (getTemperatureStats st) zeroTemp
    ∧ SystemStats.GPIO (snapshotCore t0 st) = exceptD (getGPIOStats st) zeroGPIO := by
  refine ⟨rfl, ?_, ?_, ?_, ?_, ?_, ?_⟩ <;> rw [snapshotCore_eq] <;> rfl

/-- C7: the snapshot timestamp is the clock at the invocation of the build,
whatever time the five family readers take afterwards; the built snapshot is
the one GetSystemStats returns, carrying that single stamp. -/
theorem snapshot_stamped_at_invocation (t0 : Nat) (d : Fin 5 → Nat) (st : OSState) :
    (GetSystemStatsTimed t0 d st).1.Timestamp = t0
    ∧ (GetSystemStatsTimed t0 d st).1 = snapshotCore t0 st
    ∧ (GetSystemStatsTimed t0 d st).2 = t0 + d 0 + d 1 + d 2 + d 3 + d 4
    ∧ GetSystemStats t0 st = .ok (GetSystemStatsTimed t0 d st).1 := by
  have h1 : (GetSystemStatsTimed t0 d st).1 = snapshotCore t0 st := rfl
  refine ⟨?_, h1, rfl, rfl⟩
  rw [h1, snapshotCore_eq]

/-- C9: the CPU, temperature and GPIO family readers return a nil error on
every OS state, so the error-logging branches of GetSystemStats for those
families and the 500 branch of the stats endpoint are unreachable. -/
theorem family_readers_never_fail (t0 : Nat) (st : OSState) :
    getCPUStats st = .ok (cpuStatsCore st)
    ∧ getTemperatureStats st = .ok (tempStatsCore st)
    ∧ getGPIOStats st = .ok (gpioCore st.gpioRoot)
    ∧ GetSystemStats t0 st = .ok (snapshotCore t0 st)
    ∧ (handleStatsOn t0 st).status = 200 := by
  exact ⟨rfl, rfl, rfl, rfl, rfl⟩

/-- C10: the CPU family Temperature field is never assigned by any reader, so
every snapshot carries CPU.Temperature equal to 0 regardless of the sensor
readings in the temperature family. -/
theorem cpu_temperature_always_zero (t0 : Nat) (st : OSState) :
    (snapshotCore t0 st).CPU.Temperature = 0
    ∧ (cpuStatsCore st).Temperature = 0 := by
  rw [snapshotCore_eq, cpuStatsCore_eq]
  exact ⟨rfl, rfl⟩

/-- Reduction of readTemperature on readable content. -/
theorem readTemperature_some (s : String) :
    readTemperature (some s) =
      match parseFloat (goTrim s) with
      | none => .error "parse temperature"
      | some t => .ok (ratDivNat t 1000) := rfl

/-- Reduction of readLoadAverage on readable content. -/
theorem readLoadAverage_some (s : String) :
    readLoadAverage (some s) =
      if (goFields s).length < 3 then .error "invalid loadavg format"
      else
        match parseFloats ((goFields s).take 3) with
        | some loads => .ok loads
        | none => .error "parse float" := rfl

/-- Reduction of readDiskIO on readable content. -/
theorem readDiskIO_some (lines : List String) :
    readDiskIO (some lines) = .ok (scanDiskLines lines) := rfl

/-- Reduction of the diskstats scanner on one line. -/
theorem scanDiskLines_cons (line : String) (rest : List String) :
    scanDiskLines (line :: rest) =
      if diskLineMatch line then diskLineCounters line else scanDiskLines rest := rfl

/-- C4: a thermal sensor file whose trimmed content parses as n yields n/1000
degrees Celsius; and each of the four sensors is independently optional:
replacing one sensor file (in particular by an absent one) leaves the values
read from the other three sensors unchanged. -/
theorem temperature_scaling_and_independence :
    (∀ s n, parseFloat (goTrim s) = some n →
        readTemperature (some s) = .ok (n / 1000))
    ∧ (∀ (st : OSState) (c : Option String),
        ((tempStatsCore { st with thermalCpu := c }).GPU = (tempStatsCore st).GPU
          ∧ (tempStatsCore { st with thermalCpu := c }).Board = (tempStatsCore st).Board
          ∧ (tempStatsCore { st with thermalCpu := c }).Ambient = (tempStatsCore st).Ambient)
        ∧ ((tempStatsCore { st with thermalGpu := c }).CPU = (tempStatsCore st).CPU
          ∧ (tempStatsCore { st with thermalGpu := c }).Board = (tempStatsCore st).Board
          ∧ (tempStatsCore { st with thermalGpu := c }).Ambient = (tempStatsCore st).Ambient)
        ∧ ((tempStatsCore { st with thermalBoard := c }).CPU = (tempStatsCore st).CPU
          ∧ (tempStatsCore { st with thermalBoard := c }).GPU = (tempStatsCore st).GPU
          ∧ (tempStatsCore { st with thermalBoard := c }).Ambient = (tempStatsCore st).Ambient)
        ∧ ((tempStatsCore { st with thermalAmbient := c }).CPU = (tempStatsCore st).CPU
          ∧ (tempStatsCore { st with thermalAmbient := c }).GPU = (tempStatsCore st).GPU
          ∧ (tempStatsCore { st with thermalAmbient := c }).Board = (tempStatsCore st).Board)) := by
  constructor
  · intro s n h
    rw [readTemperature_some, h]
    show Except.ok (ratDivNat n 1000) = Except.ok (n / 1000)
    rw [ratDivNat_eq]
    norm_num
  · intro st c
    refine ⟨⟨?_, ?_, ?_⟩, ⟨?_, ?_, ?_⟩, ⟨?_, ?_, ?_⟩, ⟨?_, ?_, ?_⟩⟩ <;>
      rw [tempStatsCore_eq, tempStatsCore_eq]

/-- C4 witness: the mock sensor content 45000 parses and is reported as
45000/1000 = 45 degrees. -/
theorem temperature_scaling_witness :
    parseFloat (goTrim "45000") = some 45000
    ∧ readTemperature (some "45000") = .ok ((45000 : ℚ) / 1000)
    ∧ (45000 : ℚ) / 1000 = 45 :=
  ⟨rfl, temperature_scaling_and_independence.1 "45000" 45000 rfl, by norm_num⟩

/-- C6: load-average content with at least three fields whose first three all
parse comes back as exactly those three values in order; fewer than three
fields, or a failing parse among the first three, is an error. -/
theorem load_average_first_three (s : String) :
    (∀ l, 3 ≤ (goFields s).length → parseFloats ((goFields s).take 3) = some l →
        readLoadAverage (some s) = .ok l ∧ l.length = 3)
    ∧ ((goFields s).length < 3 →
        readLoadAverage (some s) = .error "invalid loadavg format")
    ∧ (3 ≤ (goFields s).length → parseFloats ((goFields s).take 3) = none →
        readLoadAverage (some s) = .error "parse float") := by
  have hlen : ∀ (xs : List String) (l : List ℚ), parseFloats xs = some l →
      l.length = xs.length := by
    intro xs
    induction xs with
    | nil => intro l h; simp [parseFloats] at h; simp [← h]
    | cons x rest ih =>
      intro l h
      unfold parseFloats at h
      rcases hx : parseFloat x with _ | v <;> rw [hx] at h
      · exact absurd h (by simp)
      · rcases hr : parseFloats rest with _ | vs <;> rw [hr] at h
        · exact absurd h (by simp)
        · rw [Option.some_inj] at h
          subst h
          simp [ih vs hr]
  refine ⟨?_, ?_, ?_⟩
  · intro l h3 hp
    rw [readLoadAverage_some, if_neg (by omega), hp]
    refine ⟨rfl, ?_⟩
    rw [hlen _ _ hp, List.length_take]
    omega
  · intro hlt
    rw [readLoadAverage_some, if_pos hlt]
  · intro h3 hp
    rw [readLoadAverage_some, if_neg (by omega), hp]

/-- C6 witness: the mock content yields exactly [0.10, 0.25, 0.30], and a
two-field content is rejected. -/
theorem load_average_witness :
    readLoadAverage (some "0.10 0.25 0.30 2/150 12345") =
        .ok [mkRat 1 10, mkRat 1 4, mkRat 3 10]
    ∧ readLoadAverage (some "0.10 0.25") = .error "invalid loadavg format" :=
  ⟨((load_average_first_three "0.10 0.25 0.30 2/150 12345").1
      [mkRat 1 10, mkRat 1 4, mkRat 3 10] (by decide) rfl).1,
    (load_average_first_three "0.10 0.25").2.1 (by decide)⟩

/-- C3: readDiskIO returns the ParseUint readings of fields 4 and 8 of the
first diskstats line with at least 14 fields naming device sda or mmcblk0;
with no matching line it still succeeds, with both counters zero. -/
theorem disk_io_first_matching_line (lines : List String) :
    (∀ L, lines.find? diskLineMatch = some L →
        readDiskIO (some lines) = .ok (diskLineCounters L))
    ∧ (lines.find? diskLineMatch = none →
        readDiskIO (some lines) = .ok ⟨0, 0⟩) := by
  induction lines with
  | nil =>
    refine ⟨?_, ?_⟩
    · intro L h
      simp at h
    · intro _
      rfl
  | cons line rest ih =>
    rcases hm : diskLineMatch line with _ | _
    · constructor
      · intro L h
        rw [List.find?_cons_of_neg _ (by simp [hm])] at h
        have h2 : readDiskIO (some rest) = .ok (diskLineCounters L) := ih.1 L h
        rw [readDiskIO_some] at h2 ⊢
        rw [scanDiskLines_cons, if_neg (by simp [hm]), h2]
      · intro h
        rw [List.find?_cons_of_neg _ (by simp [hm])] at h
        have h2 : readDiskIO (some rest) = .ok ⟨0, 0⟩ := ih.2 h
        rw [readDiskIO_some] at h2 ⊢
        rw [scanDiskLines_cons, if_neg (by simp [hm]), h2]
    · constructor
      · intro L h
        rw [List.find?_cons_of_pos _ hm, Option.some_inj] at h
        subst h
        rw [readDiskIO_some, scanDiskLines_cons, if_pos hm]
      · intro h
        rw [List.find?_cons_of_pos _ hm] at h
        simp at h

/-- C3 witness: the completed mock diskstats line yields read counter 100 and
write counter 50, a non-matching file yields zero counters, and the first of
two matching lines wins. -/
theorem disk_io_witness :
    readDiskIO (some ["1 0 loop0 1 0 0 0 0 0 0 0 0 0 0",
        "8 0 sda 100 5 2000 60 50 2 1000 70 0 0 0",
        "179 0 mmcblk0 7 0 0 0 9 0 0 0 0 0 0"]) = .ok ⟨100, 50⟩
    ∧ readDiskIO (some ["1 0 loop0 1 0 0 0 0 0 0 0 0 0 0"]) = .ok ⟨0, 0⟩ :=
  ⟨(disk_io_first_matching_line _).1
      "8 0 sda 100 5 2000 60 50 2 1000 70 0 0 0" (by decide),
    (disk_io_first_matching_line _).2 (by decide)⟩

/-- The contribution of one directory entry to the pin map: a pin state when
the entry has the gpio name prefix and its state reads successfully, nothing
otherwise. -/
def gpioOk (e : GPIOEntry) : Option GPIOState :=
  if goStartsWith "gpio" e.name then
    match readGPIOState e with
    | .ok vm => some ⟨e.name, vm.1, vm.2⟩
    | .error _ => none
  else none

/-- gpioInsert acts as assignment of the gpioOk contribution under the entry
name, and leaves the map unchanged for skipped entries. -/
theorem gpioInsert_eq (pins : String → Option GPIOState) (e : GPIOEntry) (n : String) :
    gpioInsert pins e n =
      match gpioOk e with
      | some s => if n = e.name then some s else pins n
      | none => pins n := by
  unfold gpioInsert gpioOk
  rcases hs : goStartsWith "gpio" e.name with _ | _
  · simp
  · rcases hr : readGPIOState e with err | vm <;> simp

/-- A name no listed entry contributes to is left at the base map. -/
theorem gpioFold_untouched (entries : List GPIOEntry)
    (pins : String → Option GPIOState) (n : String)
    (h : ∀ e ∈ entries, e.name ≠ n ∨ gpioOk e = none) :
    gpioFold pins entries n = pins n := by
  induction entries generalizing pins with
  | nil => rfl
  | cons e rest ih =>
    have he := h e (by simp)
    have hrest : ∀ f ∈ rest, f.name ≠ n ∨ gpioOk f = none := by
      intro f hf
      exact h f (by simp [hf])
    show gpioFold (gpioInsert pins e) rest n = pins n
    rw [ih (gpioInsert pins e) hrest, gpioInsert_eq]
    rcases he with hne | hnone
    · rcases hg : gpioOk e with _ | s
      · rfl
      · simp [Ne.symm hne]
    · rw [hnone]

/-- With no duplicate entry names, an entry whose contribution exists ends up
in the pin map under its name. -/
theorem gpioFold_mem (entries : List GPIOEntry)
    (pins : String → Option GPIOState) (e : GPIOEntry) (s : GPIOState)
    (hnd : (entries.map GPIOEntry.name).Nodup)
    (he : e ∈ entries) (hok : gpioOk e = some s) :
    gpioFold pins entries e.name = some s := by
  induction entries generalizing pins with
  | nil => cases he
  | cons f rest ih =>
    rcases List.mem_cons.mp he with rfl | hmem
    · have hrest : ∀ g ∈ rest, g.name ≠ e.name ∨ gpioOk g = none := by
        intro g hg
        left
        have := (List.nodup_cons.mp hnd).1
        intro heq
        exact this (by rw [← heq]; exact List.mem_map_of_mem _ hg)
      show gpioFold (gpioInsert pins e) rest e.name = some s
      rw [gpioFold_untouched rest _ _ hrest, gpioInsert_eq, hok]
      simp
    · exact ih (gpioInsert pins f) (List.nodup_cons.mp hnd).2 hmem

/-- C5: with the GPIO sysfs root absent the reader returns an empty pin map
and no error while every other snapshot family is unchanged; with the root
present, exactly the gpio-prefixed entries whose direction and value reads
both succeed appear in the map under their name, and a per-pin failure omits
only that pin without failing the family. -/
theorem gpio_enumeration_and_degradation :
    (∀ st : OSState, st.gpioRoot = .absent →
        getGPIOStats st = .ok ⟨fun _ => none⟩)
    ∧ (∀ (t0 : Nat) (st : OSState) (root : GPIORoot),
        snapshotCore t0 { st with gpioRoot := root } =
          { snapshotCore t0 st with GPIO := gpioCore root })
    ∧ (∀ e v m, (goStartsWith "gpio" e.name = true ∧ readGPIOState e = .ok (v, m)) ↔
        gpioOk e = some ⟨e.name, v, m⟩)
    ∧ (∀ entries, (entries.map GPIOEntry.name).Nodup →
        getGPIOStats { sampleState with gpioRoot := .dir entries } =
            .ok (gpioCore (.dir entries))
        ∧ (∀ e ∈ entries, ∀ s, gpioOk e = some s →
            (gpioCore (.dir entries)).Pins e.name = some s)
        ∧ (∀ e ∈ entries, gpioOk e = none →
            (gpioCore (.dir entries)).Pins e.name = none)
        ∧ (∀ n, (∀ e ∈ entries, e.name ≠ n) →
            (gpioCore (.dir entries)).Pins n = none)) := by
  refine ⟨?_, ?_, ?_, ?_⟩
  · intro st h
    unfold getGPIOStats gpioCore
    rw [h]
  · intro t0 st root
    rw [snapshotCore_eq, snapshotCore_eq, cpuStatsCore_eq, cpuStatsCore_eq,
      tempStatsCore_eq, tempStatsCore_eq]
    rfl
  · intro e v m
    unfold gpioOk
    constructor
    · intro ⟨h1, h2⟩
      rw [if_pos h1, h2]
    · intro h
      rcases hs : goStartsWith "gpio" e.name with _ | _
      · rw [if_neg (by simp [hs])] at h
        cases h
      · rw [if_pos hs] at h
        rcases hr : readGPIOState e with err | vm <;> rw [hr] at h
        · cases h
        · rcases vm with ⟨v2, m2⟩
          simp only [Option.some_inj] at h
          have hv : v2 = v := congrArg GPIOState.Value h
          have hm2 : m2 = m := congrArg GPIOState.Mode h
          subst hv
          subst hm2
          exact ⟨rfl, rfl⟩
  · intro entries hnd
    refine ⟨rfl, ?_, ?_, ?_⟩
    · intro e he s hok
      exact gpioFold_mem entries _ e s hnd he hok
    · intro e he hnone
      have : ∀ f ∈ entries, f.name ≠ e.name ∨ gpioOk f = none := by
        intro f hf
        by_cases heq : f.name = e.name
        · right
          have hfe : f = e := List.inj_on_of_nodup_map hnd hf he heq
          rw [hfe]
          exact hnone
        · exact Or.inl heq
      exact gpioFold_untouched entries _ _ this
    · intro n hn
      refine gpioFold_untouched entries _ _ ?_
      intro e he
      exact Or.inl (hn e he)

/-- A concrete GPIO directory listing: one good pin, one pin whose direction
read fails, and one non-pin entry. -/
def sampleEntries : List GPIOEntry :=
  [⟨"gpio17", some "out\n", some "1\n"⟩,
    ⟨"gpio4", none, some "0"⟩,
    ⟨"export", some "in", some "0"⟩]

/-- C5 witness: on the sample state the absent root yields the empty map with
no error; on the sample listing the good pin is present, the failing pin and
the non-pin entry are omitted, and an unlisted name is absent. -/
theorem gpio_enumeration_witness :
    getGPIOStats sampleState = .ok ⟨fun _ => none⟩
    ∧ (gpioCore (.dir sampleEntries)).Pins "gpio17" = some ⟨"gpio17", 1, "out"⟩
    ∧ (gpioCore (.dir sampleEntries)).Pins "gpio4" = none
    ∧ (gpioCore (.dir sampleEntries)).Pins "export" = none
    ∧ (gpioCore (.dir sampleEntries)).Pins "gpio99" = none := by
  obtain ⟨h1, _, _, h4⟩ := gpio_enumeration_and_degradation
  obtain ⟨_, hmem, hnone, habsent⟩ := h4 sampleEntries (by decide)
  refine ⟨h1 sampleState rfl, ?_, ?_, ?_, ?_⟩
  · exact hmem ⟨"gpio17", some "out\n", some "1\n"⟩ (by decide) _ rfl
  · exact hnone ⟨"gpio4", none, some "0"⟩ (by decide) rfl
  · exact hnone ⟨"export", some "in", some "0"⟩ (by decide) rfl
  · exact habsent "gpio99" (by decide)

/-- The delivery loop in closed form: delivered and remaining clients are
those whose send succeeded, closed clients those whose send failed. -/
theorem broadcastLoop_eq (clients : List Nat) (ok : Nat → Bool) :
    broadcastLoop clients ok =
      ⟨clients.filter ok, clients.filter (fun c => !ok c), clients.filter ok⟩ := by
  induction clients with
  | nil => rfl
  | cons c rest ih =>
    unfold broadcastLoop
    rw [ih]
    rcases hc : ok c with _ | _ <;> simp [List.filter_cons, hc]

/-- C2: in the lock discipline of server.go, a section that structurally
mutates the registry can never overlap in time with a section that reads or
mutates it; and in the delivery loop of one broadcast tick, a client whose
send fails is closed and drops out of the registry while every client whose
send succeeds is still delivered to. -/
theorem registry_exclusion_and_teardown :
    (∀ a ∈ serverSections, ∀ b ∈ serverSections,
        a.mutatesRegistry = true → (b.readsRegistry = true ∨ b.mutatesRegistry = true) →
        canOverlap a b = false)
    ∧ (∀ (clients : List Nat) (ok : Nat → Bool) (c : Nat), c ∈ clients →
        ((ok c = false → c ∈ (broadcastLoop clients ok).closed
            ∧ c ∉ (broadcastLoop clients ok).registryAfter)
          ∧ (ok c = true → c ∈ (broadcastLoop clients ok).delivered))) := by
  constructor
  · decide
  · intro clients ok c hc
    rw [broadcastLoop_eq]
    refine ⟨fun hfail => ⟨?_, ?_⟩, fun hokc => ?_⟩
    · simp [List.mem_filter, hc, hfail]
    · simp only [List.mem_filter]
      intro ⟨_, hmem⟩
      rw [hmem] at hfail
      cases hfail
    · simp [List.mem_filter, hc, hokc]

/-- C2 witness: the broadcast section (which mutates under the read lock)
cannot overlap itself or an insert; in a concrete tick over clients 1, 2, 3
where the send to client 2 fails, client 2 is closed and deregistered while
clients 1 and 3 are still delivered to. -/
theorem registry_exclusion_witness :
    canOverlap broadcastTickSection broadcastTickSection = false
    ∧ canOverlap insertOnConnect broadcastTickSection = false
    ∧ 2 ∈ (broadcastLoop [1, 2, 3] (fun c => !(c == 2))).closed
    ∧ 2 ∉ (broadcastLoop [1, 2, 3] (fun c => !(c == 2))).registryAfter
    ∧ 1 ∈ (broadcastLoop [1, 2, 3] (fun c => !(c == 2))).delivered
    ∧ 3 ∈ (broadcastLoop [1, 2, 3] (fun c => !(c == 2))).delivered := by
  obtain ⟨hlock, hloop⟩ := registry_exclusion_and_teardown
  refine ⟨?_, ?_, ?_, ?_, ?_, ?_⟩
  · exact hlock broadcastTickSection (by decide) broadcastTickSection (by decide)
      rfl (Or.inl rfl)
  · exact hlock insertOnConnect (by decide) broadcastTickSection (by decide)
      rfl (Or.inl rfl)
  · exact ((hloop [1, 2, 3] (fun c => !(c == 2)) 2 (by decide)).1 rfl).1
  · exact ((hloop [1, 2, 3] (fun c => !(c == 2)) 2 (by decide)).1 rfl).2
  · exact (hloop [1, 2, 3] (fun c => !(c == 2)) 1 (by decide)).2 rfl
  · exact (hloop [1, 2, 3] (fun c => !(c == 2)) 3 (by decide)).2 rfl

/-- C8: the stats endpoint performs one fresh snapshot build per request and
answers 200 with the JSON-encoded snapshot exactly when the build returns no
error, and 500 with a plain-text error body exactly when it returns an
error. -/
theorem stats_endpoint_status :
    (∀ (t0 : Nat) (st : OSState),
        handleStatsOn t0 st = handleStatsCore (GetSystemStats t0 st))
    ∧ (∀ r : Except String SystemStats,
        ((handleStatsCore r).status = 200 ↔ ∃ s, r = .ok s)
        ∧ ((handleStatsCore r).status = 500 ↔ ∃ e, r = .error e)
        ∧ (∀ s, r = .ok s → handleStatsCore r = ⟨200, "application/json", .json s⟩)
        ∧ (∀ e, r = .error e →
            handleStatsCore r = ⟨500, "text/plain; charset=utf-8", .text e⟩)) := by
  refine ⟨fun _ _ => rfl, fun r => ?_⟩
  rcases r with e | s <;>
    refine ⟨?_, ?_, ?_, ?_⟩ <;>
    simp [handleStatsCore]

/-- C8 witness: a failing build yields the 500 plain-text response, a
successful build on the sample state yields status 200, and the handler is
the branch on a fresh build. -/
theorem stats_endpoint_witness :
    handleStatsCore (.error "boom") =
        ⟨500, "text/plain; charset=utf-8", .text "boom"⟩
    ∧ (handleStatsCore (.ok (snapshotCore 0 sampleState))).status = 200
    ∧ handleStatsOn 0 sampleState = handleStatsCore (GetSystemStats 0 sampleState) := by
  obtain ⟨h1, h2⟩ := stats_endpoint_status
  exact ⟨(h2 (.error "boom")).2.2.2 "boom" rfl,
    ((h2 (.ok (snapshotCore 0 sampleState))).1).mpr ⟨_, rfl⟩,
    h1 0 sampleState⟩

end Emmon
